import Mathlib

/-!
Shallow embedding of `src/dta/RoadLink.py` (class `RoadLink`) from the DTA
network modeling library, together with theorems settling the frozen claims
about its simulation-time-series accessors and geometry routines.

Modeling conventions:
* Times and volumes are integers (`Int`), node coordinates are rationals (`ℚ`);
  the geometry routines, which use `math.sqrt`, `math.acos`, `math.atan`,
  return real numbers (`ℝ`).
* Fallible Python code (code that can raise `DtaError`, or a Python
  `IndexError`/`NameError`) is embedded as `Except DtaError _`.  A mutator
  returns the updated link on success; on error no updated link is produced,
  so the link state is unchanged by a failed call.
* The Python `defaultdict(int)` volume table is embedded as a total function
  `Int × Int → Int` (missing bins are 0); storing a value is a pointwise
  function update.
* The cached `_centerline` field (recomputed by every call of
  `getCenterLine`) and the `_incomingMovements` / `_lanePermissions`
  collections are omitted: no embedded accessor reads them.
-/

/-- A network node: unique integer id plus x/y coordinates
(the `Node` collaborator interface: `getId()`, `getX()`, `getY()`). -/
structure Node where
  id : Int
  x : ℚ
  y : ℚ
deriving DecidableEq

/-- The domain error signal (`DtaError`), distinguished here by failure
category instead of by message text.  `shapePointIndexOutOfRange` stands for
the Python `IndexError` raised by `self._shapePoints[-2]` on a singleton
list, and is kept separate from the `DtaError` categories proper. -/
inductive DtaError where
  | nonPositiveNumLanes
  | invalidTimeBin
  | outOfSimulationTime
  | inputTimeStepMismatch
  | outputTimeStepMismatch
  | movementVolumeConflict
  | tooManyOutgoingMovements
  | zeroLengthLink
  | acosOutOfRange
  | shapePointIndexOutOfRange
deriving DecidableEq

/-- Modelled from the spec: the `Movement` collaborator, reduced to the part
of its interface the claims use — its own per-time-bin simulated volume
series ("mapping from a (startTimeInMin, endTimeInMin) half-open time-bin key
to an integer volume (default 0 if absent)").  `Movement.py` is not part of
this excerpt. -/
structure Movement where
  simVolume : Int × Int → Int

/-- Modelled from the spec: the `pairwise` helper used by
`RoadLink.getSimVolume` is defined elsewhere in this repository (it is not
imported in `RoadLink.py`); it yields consecutive overlapping pairs
`[(a0,a1), (a1,a2), ...]` of a sequence, which `getSimVolume` uses to walk
the window "in `simTimeStepInMin` increments". -/
def pairwiseL {α : Type} : List α → List (α × α)
  | [] => []
  | [_] => []
  | a :: b :: rest => (a, b) :: pairwiseL (b :: rest)

/-- Python `range(start, stop, step)` for a positive `step`: the integers
`start + i * step` for `0 ≤ i < ⌈(stop - start) / step⌉`. -/
def pyRange (start stop step : Int) : List Int :=
  if 0 < step then
    (List.range ((stop - start + step - 1) / step).toNat).map
      (fun (i : ℕ) => start + (i : Int) * step)
  else []

/-- `RoadLink` state.  The three process-wide simulation clock parameters
(`simStartTimeInMin`, `simEndTimeInMin`, `simTimeStepInMin`), supplied by the
containing network in the source, are carried as read-only fields. -/
structure RoadLink where
  id : Int
  startNode : Node
  endNode : Node
  reverseAttachedLinkId : Option Int
  facilityType : Int
  length : Option ℚ
  freeflowSpeed : ℚ
  effectiveLengthFactor : ℚ
  responseTimeFactor : ℚ
  numLanes : Int
  roundAbout : Bool
  level : Int
  label : Option String
  startShift : Option Int
  endShift : Option Int
  shapePoints : List (ℚ × ℚ)
  outgoingMovements : List Movement
  simVolume : Int × Int → Int
  simStartTimeInMin : Int
  simEndTimeInMin : Int
  simTimeStepInMin : Int

namespace RoadLink

/-- `RoadLink.DEFAULT_LEVEL`. -/
def DEFAULT_LEVEL : Int := 0

/-- `RoadLink.DEFAULT_LANE_WIDTH_FEET`. -/
def DEFAULT_LANE_WIDTH_FEET : ℚ := 12

/-- `RoadLink.DIR_EB` / `DIR_WB` / `DIR_NB` / `DIR_SB`. -/
def DIR_EB : String := "EB"

def DIR_WB : String := "WB"

def DIR_NB : String := "NB"

def DIR_SB : String := "SB"

end RoadLink

/-- `RoadLink.__init__`: raises if `numLanes <= 0`; `level` falls back to
`DEFAULT_LEVEL` when falsy (Python `if level:` — i.e. `None` or `0`);
permissions/movements/shifts/shape points start empty and the volume series
starts as an empty `defaultdict(int)`. -/
def mkRoadLink (id : Int) (startNode endNode : Node) (reverseAttachedLinkId : Option Int)
    (facilityType : Int) (length : Option ℚ)
    (freeflowSpeed effectiveLengthFactor responseTimeFactor : ℚ)
    (numLanes : Int) (roundAbout : Bool) (level : Option Int) (label : Option String)
    (simStartTimeInMin simEndTimeInMin simTimeStepInMin : Int) :
    Except DtaError RoadLink :=
  if numLanes ≤ 0 then .error .nonPositiveNumLanes
  else .ok
    { id, startNode, endNode, reverseAttachedLinkId, facilityType, length,
      freeflowSpeed, effectiveLengthFactor, responseTimeFactor, numLanes, roundAbout,
      level := match level with
        | some v => if v ≠ 0 then v else RoadLink.DEFAULT_LEVEL
        | none => RoadLink.DEFAULT_LEVEL,
      label, startShift := none, endShift := none, shapePoints := [],
      outgoingMovements := [], simVolume := fun _ => 0,
      simStartTimeInMin, simEndTimeInMin, simTimeStepInMin }

namespace RoadLink

/-- `RoadLink._validateInputTimes`. -/
def validateInputTimes (l : RoadLink) (startTimeInMin endTimeInMin : Int) :
    Except DtaError Unit :=
  if startTimeInMin ≥ endTimeInMin then .error .invalidTimeBin
  else if startTimeInMin < l.simStartTimeInMin ∨ endTimeInMin > l.simEndTimeInMin then
    .error .outOfSimulationTime
  else .ok ()

/-- `RoadLink._checkInputTimeStep`. -/
def checkInputTimeStep (l : RoadLink) (startTimeInMin endTimeInMin : Int) :
    Except DtaError Unit :=
  if endTimeInMin - startTimeInMin ≠ l.simTimeStepInMin then .error .inputTimeStepMismatch
  else .ok ()

/-- `RoadLink._checkOutputTimeStep`. -/
def checkOutputTimeStep (l : RoadLink) (startTimeInMin endTimeInMin : Int) :
    Except DtaError Unit :=
  if (endTimeInMin - startTimeInMin) % l.simTimeStepInMin ≠ 0 then
    .error .outputTimeStepMismatch
  else .ok ()

/-- Modelled from the spec: `Movement.getSimVolume` ("per-turn simulated
volume accessor") sums the per-native-bin entries of the movement itself over the
window, in `simTimeStepInMin` increments, exactly as the link-level series is
summed; `Movement.py` is not part of this excerpt. -/
def movGetSimVolume (step : Int) (m : Movement) (startTimeInMin endTimeInMin : Int) : Int :=
  ((pairwiseL (pyRange startTimeInMin (endTimeInMin + 1) step)).map m.simVolume).sum

/-- `RoadLink._hasMovementVolumes`: true iff at least one outgoing movement
has volume `> 0` over the window. -/
def hasMovementVolumes (l : RoadLink) (startTimeInMin endTimeInMin : Int) : Bool :=
  l.outgoingMovements.any
    (fun m => movGetSimVolume l.simTimeStepInMin m startTimeInMin endTimeInMin > 0)

/-- `RoadLink.getNumOutgoingMovements`. -/
def getNumOutgoingMovements (l : RoadLink) : Nat :=
  l.outgoingMovements.length

/-- `RoadLink.getSimVolume`: validates the window, then either sums the
volumes of the outgoing movements or walks the own series of the link bin by bin using
`pairwise(range(startTimeInMin, endTimeInMin + 1, simTimeStepInMin))`. -/
def getSimVolume (l : RoadLink) (startTimeInMin endTimeInMin : Int) :
    Except DtaError Int := do
  l.validateInputTimes startTimeInMin endTimeInMin
  l.checkOutputTimeStep startTimeInMin endTimeInMin
  if l.getNumOutgoingMovements > 0 then
    return (l.outgoingMovements.map
      (fun m => movGetSimVolume l.simTimeStepInMin m startTimeInMin endTimeInMin)).sum
  else
    return ((pairwiseL (pyRange startTimeInMin (endTimeInMin + 1) l.simTimeStepInMin)).map
      l.simVolume).sum

/-- `RoadLink.setSimVolume`: validates the window and the single-bin step;
errors if any outgoing movement already carries volume in the window, or if
there is more than one outgoing movement; with exactly one it delegates the
write to the series of that movement; with none it stores under the exact bin
key. -/
def setSimVolume (l : RoadLink) (startTimeInMin endTimeInMin volume : Int) :
    Except DtaError RoadLink := do
  l.validateInputTimes startTimeInMin endTimeInMin
  l.checkInputTimeStep startTimeInMin endTimeInMin
  if l.hasMovementVolumes startTimeInMin endTimeInMin then
    .error .movementVolumeConflict
  else if l.getNumOutgoingMovements > 1 then
    .error .tooManyOutgoingMovements
  else if l.getNumOutgoingMovements == 1 then
    let upd : Movement → Movement := fun m =>
      { m with simVolume := fun p => if p = (startTimeInMin, endTimeInMin) then volume else m.simVolume p }
    return { l with outgoingMovements := l.outgoingMovements.map upd }
  else
    return { l with simVolume := fun p => if p = (startTimeInMin, endTimeInMin) then volume else l.simVolume p }

/-- `RoadLink.getNumLanes`. -/
def getNumLanes (l : RoadLink) : Int :=
  l.numLanes

/-- `RoadLink.setNumLanes`: stores the given value, with no validation. -/
def setNumLanes (l : RoadLink) (numLanes : Int) : RoadLink :=
  { l with numLanes := numLanes }

/-- `RoadLink.addShapePoint`: appends an `(x, y)` shape point. -/
def addShapePoint (l : RoadLink) (x y : ℚ) : RoadLink :=
  { l with shapePoints := l.shapePoints ++ [(x, y)] }

/-- `RoadLink.getNumShapePoints`. -/
def getNumShapePoints (l : RoadLink) : Nat :=
  l.shapePoints.length

/-- `RoadLink.addShifts`: stores the start/end shift values. -/
def addShifts (l : RoadLink) (startShift endShift : Int) : RoadLink :=
  { l with startShift := some startShift, endShift := some endShift }

/-- `RoadLink.getShifts`. -/
def getShifts (l : RoadLink) : Option Int × Option Int :=
  (l.startShift, l.endShift)

end RoadLink

namespace RoadLink

/-- Modelled from the spec: `Link.euclideanLength` (the `Link` base entity is
not part of this excerpt) — the "Euclidean computation from node
coordinates", `sqrt(dx ^ 2 + dy ^ 2)` over the start/end node coordinates. -/
noncomputable def euclideanLength (l : RoadLink) : ℝ :=
  Real.sqrt (((l.endNode.x - l.startNode.x : ℚ) : ℝ) ^ 2 + ((l.endNode.y - l.startNode.y : ℚ) : ℝ) ^ 2)

/-- `RoadLink.getLength`: returns the stored `_length` whenever it differs
from the sentinel `-1` — in particular it returns Python `None` (embedded as
`Option.none`) for a link constructed with `length=None` — and the Euclidean
length only when `_length == -1`. -/
noncomputable def getLength (l : RoadLink) : Option ℝ :=
  match l.length with
  | none => none
  | some q => if q = -1 then some l.euclideanLength else some (q : ℝ)

/-- `RoadLink.getCenterLine`: offsets the start→end segment perpendicular, to
the right of the direction of travel, by `numLanes * DEFAULT_LANE_WIDTH_FEET
/ 2`; a zero-length segment is treated as length 1. -/
noncomputable def getCenterLine (l : RoadLink) : (ℝ × ℝ) × (ℝ × ℝ) :=
  let dx : ℝ := ((l.endNode.x - l.startNode.x : ℚ) : ℝ)
  let dy : ℝ := ((l.endNode.y - l.startNode.y : ℚ) : ℝ)
  let length0 := l.euclideanLength
  let length := if length0 = 0 then 1 else length0
  let scale := (l.numLanes : ℝ) * (DEFAULT_LANE_WIDTH_FEET : ℝ) / 2 / length
  let xOffset := dy * scale
  let yOffset := - dx * scale
  (((l.startNode.x : ℝ) + xOffset, (l.startNode.y : ℝ) + yOffset),
   ((l.endNode.x : ℝ) + xOffset, (l.endNode.y : ℝ) + yOffset))

/-- `RoadLink.getOutline`: the 4-point ring (start node, end node, end node
offset, start node offset) with full offset width `numLanes *
DEFAULT_LANE_WIDTH_FEET * scale`. -/
noncomputable def getOutline (l : RoadLink) (scale : ℝ) :
    (ℝ × ℝ) × (ℝ × ℝ) × (ℝ × ℝ) × (ℝ × ℝ) :=
  let dx : ℝ := ((l.endNode.x - l.startNode.x : ℚ) : ℝ)
  let dy : ℝ := ((l.endNode.y - l.startNode.y : ℚ) : ℝ)
  let length0 := l.euclideanLength
  let length := if length0 = 0 then 1 else length0
  let scale2 := (l.numLanes : ℝ) * (DEFAULT_LANE_WIDTH_FEET : ℝ) / length * scale
  let xOffset := dy * scale2
  let yOffset := - dx * scale2
  (((l.startNode.x : ℝ), (l.startNode.y : ℝ)),
   ((l.endNode.x : ℝ), (l.endNode.y : ℝ)),
   ((l.endNode.x : ℝ) + xOffset, (l.endNode.y : ℝ) + yOffset),
   ((l.startNode.x : ℝ) + xOffset, (l.startNode.y : ℝ) + yOffset))

/-- The shoelace signed area (doubled) of a 4-point ring; negative iff the
ring is in clockwise order (with x to the east and y to the north). -/
def ringSignedArea (r : (ℝ × ℝ) × (ℝ × ℝ) × (ℝ × ℝ) × (ℝ × ℝ)) : ℝ :=
  (r.1.1 * r.2.1.2 - r.2.1.1 * r.1.2) +
  (r.2.1.1 * r.2.2.1.2 - r.2.2.1.1 * r.2.1.2) +
  (r.2.2.1.1 * r.2.2.2.2 - r.2.2.2.1 * r.2.2.1.2) +
  (r.2.2.2.1 * r.1.2 - r.1.1 * r.2.2.2.2)

/-- `RoadLink.getAcuteAngle`: Python compares `self == other` by object
identity; link ids are unique within a network (spec §3), so identity is
embedded as id equality.  `Node` comparisons (`==` on `Node` objects) are
embedded as structural equality.  Mirrors the special cases of the source in
order, then the `acos` of the normalized dot product with the `1e-5`
clamp. -/
noncomputable def getAcuteAngle (l other : RoadLink) : Except DtaError ℝ :=
  if l.id = other.id then .ok 0
  else if l.startNode.x = other.startNode.x ∧ l.startNode.y = other.endNode.y ∧
      l.endNode.x = other.endNode.x ∧ l.endNode.y = other.endNode.y then .ok 0
  else if l.startNode = other.endNode ∧ l.endNode = other.startNode then .ok 180
  else
    let dx1 : ℝ := ((l.endNode.x - l.startNode.x : ℚ) : ℝ)
    let dy1 : ℝ := ((l.endNode.y - l.startNode.y : ℚ) : ℝ)
    let dx2 : ℝ := ((other.endNode.x - other.startNode.x : ℚ) : ℝ)
    let dy2 : ℝ := ((other.endNode.y - other.startNode.y : ℚ) : ℝ)
    let length1 := Real.sqrt (dx1 ^ 2 + dy1 ^ 2)
    let length2 := Real.sqrt (dx2 ^ 2 + dy2 ^ 2)
    if length1 = 0 then .error .zeroLengthLink
    else if length2 = 0 then .error .zeroLengthLink
    else if |(dx1 * dx2 + dy1 * dy2) / (length1 * length2)| > 1 then
      if |(dx1 * dx2 + dy1 * dy2) / (length1 * length2)| - 1 < 0.00001 then .ok 0
      else .error .acosOutOfRange
    else .ok (|Real.arccos ((dx1 * dx2 + dy1 * dy2) / (length1 * length2))| / Real.pi * 180)

/-- The quadrant-based compass-bearing computation of
`RoadLink.getOrientation`, from point `(x1, y1)` to `(x2, y2)`: radians by
quadrant case, converted to degrees clockwise from north; identical points
give `0`. -/
noncomputable def orientationFrom (x1 y1 x2 y2 : ℚ) : ℝ :=
  let rad : ℝ :=
    if x2 > x1 ∧ y2 ≤ y1 then
      Real.arctan (|((y2 - y1 : ℚ) : ℝ)| / |((x2 - x1 : ℚ) : ℝ)|) + Real.pi / 2
    else if x2 ≤ x1 ∧ y2 < y1 then
      Real.arctan (|((x2 - x1 : ℚ) : ℝ)| / |((y2 - y1 : ℚ) : ℝ)|) + Real.pi
    else if x2 < x1 ∧ y2 ≥ y1 then
      Real.arctan (|((y2 - y1 : ℚ) : ℝ)| / |((x2 - x1 : ℚ) : ℝ)|) + 3 * Real.pi / 2
    else if x2 ≥ x1 ∧ y2 > y1 then
      Real.arctan (|((x2 - x1 : ℚ) : ℝ)| / |((y2 - y1 : ℚ) : ℝ)|)
    else 0
  rad * 180 / Real.pi

/-- `RoadLink.getOrientation`: uses the last two shape points when any shape
points exist (`self._shapePoints[-2]` and `[-1]`; on a singleton list `[-2]`
raises an `IndexError`), else the start/end node coordinates. -/
noncomputable def getOrientation (l : RoadLink) : Except DtaError ℝ :=
  match l.shapePoints with
  | [] => .ok (orientationFrom l.startNode.x l.startNode.y l.endNode.x l.endNode.y)
  | ps@(_ :: _) =>
    if 2 ≤ ps.length then
      let p1 := ps.getD (ps.length - 2) (0, 0)
      let p2 := ps.getD (ps.length - 1) (0, 0)
      .ok (orientationFrom p1.1 p1.2 p2.1 p2.2)
    else .error .shapePointIndexOutOfRange

/-- The orientation bucketing of `RoadLink.getDirection`. -/
noncomputable def directionOfOrientation (orientation : ℝ) : String :=
  if 315 ≤ orientation ∨ orientation < 45 then DIR_NB
  else if 45 ≤ orientation ∧ orientation < 135 then DIR_EB
  else if 135 ≤ orientation ∧ orientation < 225 then DIR_SB
  else DIR_WB

/-- `RoadLink.getDirection`: buckets `getOrientation()` into one of
`NB`/`EB`/`SB`/`WB`. -/
noncomputable def getDirection (l : RoadLink) : Except DtaError String :=
  (l.getOrientation).map directionOfOrientation

end RoadLink

/-! ### Helper lemmas about the bin walk -/

lemma pyRange_eq_map (s e step : Int) (n : ℕ) (hstep : 0 < step)
    (hse : e - s = (n : Int) * step) :
    pyRange s (e + 1) step =
      (List.range (n + 1)).map (fun (i : ℕ) => s + (i : Int) * step) := by
  unfold pyRange
  rw [if_pos hstep]
  have h2 : e + 1 - s + step - 1 = ((n : Int) + 1) * step := by
    calc e + 1 - s + step - 1 = (e - s) + step := by ring
      _ = (n : Int) * step + step := by rw [hse]
      _ = ((n : Int) + 1) * step := by ring
  have hcount : (e + 1 - s + step - 1) / step = (n : Int) + 1 := by
    rw [h2, Int.mul_ediv_cancel _ (by omega : step ≠ 0)]
  rw [hcount, show ((n : Int) + 1).toNat = n + 1 by omega]

lemma pairwiseL_map_range (n : ℕ) (f : ℕ → Int) :
    pairwiseL ((List.range (n + 1)).map f) =
      (List.range n).map (fun (i : ℕ) => (f i, f (i + 1))) := by
  induction n generalizing f with
  | zero =>
    simp [List.range_succ, pairwiseL]
  | succ m ih =>
    have h1 : List.range (m + 1 + 1) = 0 :: Nat.succ 0 :: (List.range m).map (Nat.succ ∘ Nat.succ) := by
      rw [List.range_succ_eq_map, List.range_succ_eq_map, List.map_cons, List.map_map]
    rw [h1, List.map_cons, List.map_cons]
    rw [show pairwiseL (f 0 :: f (Nat.succ 0) :: ((List.range m).map (Nat.succ ∘ Nat.succ)).map f)
        = (f 0, f (Nat.succ 0)) :: pairwiseL (f (Nat.succ 0) :: ((List.range m).map (Nat.succ ∘ Nat.succ)).map f)
      from rfl]
    have h2 : f (Nat.succ 0) :: ((List.range m).map (Nat.succ ∘ Nat.succ)).map f
        = (List.range (m + 1)).map (fun (i : ℕ) => f (i + 1)) := by
      rw [List.range_succ_eq_map, List.map_cons, List.map_map, List.map_map]
      rfl
    rw [h2, ih (fun (i : ℕ) => f (i + 1))]
    rw [List.range_succ_eq_map, List.map_cons, List.map_map]
    refine congrArg (fun t => (f 0, f 1) :: t) ?_
    refine List.map_congr_left ?_
    intro i _
    rfl

lemma binWalk_eq_sum (f : Int × Int → Int) (s e step : Int) (n : ℕ) (hstep : 0 < step)
    (hse : e - s = (n : Int) * step) :
    ((pairwiseL (pyRange s (e + 1) step)).map f).sum =
      ((List.range n).map
        (fun (i : ℕ) => f (s + (i : Int) * step, s + ((i : Int) + 1) * step))).sum := by
  rw [pyRange_eq_map s e step n hstep hse]
  rw [pairwiseL_map_range n (fun (i : ℕ) => s + (i : Int) * step)]
  rw [List.map_map]
  refine congrArg List.sum (List.map_congr_left ?_)
  intro i _
  show f (s + (i : Int) * step, s + ((i : Int) + 1) * step) = _
  norm_num

lemma binWalk_single (f : Int × Int → Int) (s e step : Int) (hstep : 0 < step)
    (hse : e - s = step) :
    ((pairwiseL (pyRange s (e + 1) step)).map f).sum = f (s, e) := by
  rw [binWalk_eq_sum f s e step 1 hstep (by omega)]
  simp [List.range_succ]
  rw [show s + step = e by omega]

/-! ### Reduction lemmas for the validated accessors -/

lemma validateInputTimes_ok (l : RoadLink) (s e : Int) (h1 : s < e)
    (h2 : l.simStartTimeInMin ≤ s) (h3 : e ≤ l.simEndTimeInMin) :
    l.validateInputTimes s e = .ok () := by
  unfold RoadLink.validateInputTimes
  rw [if_neg (by omega), if_neg (by omega)]

lemma checkInputTimeStep_ok (l : RoadLink) (s e : Int)
    (h : e - s = l.simTimeStepInMin) :
    l.checkInputTimeStep s e = .ok () := by
  unfold RoadLink.checkInputTimeStep
  rw [if_neg (by omega)]

lemma checkOutputTimeStep_ok (l : RoadLink) (s e : Int)
    (h : (e - s) % l.simTimeStepInMin = 0) :
    l.checkOutputTimeStep s e = .ok () := by
  unfold RoadLink.checkOutputTimeStep
  rw [if_neg (by omega)]

lemma getSimVolume_reduce (l : RoadLink) (s e : Int)
    (hval : l.validateInputTimes s e = .ok ())
    (hchk : l.checkOutputTimeStep s e = .ok ()) :
    l.getSimVolume s e =
      (if l.getNumOutgoingMovements > 0 then
        .ok ((l.outgoingMovements.map
          (fun m => RoadLink.movGetSimVolume l.simTimeStepInMin m s e)).sum)
      else
        .ok (((pairwiseL (pyRange s (e + 1) l.simTimeStepInMin)).map l.simVolume).sum)) := by
  unfold RoadLink.getSimVolume
  rw [hval, hchk]
  rfl

lemma exceptOkBind {eps alpha beta : Type} (a : alpha) (f : alpha → Except eps beta) :
    (Except.ok a : Except eps alpha) >>= f = f a := rfl

lemma setSimVolume_noMov (l : RoadLink) (s e v : Int)
    (hmov : l.outgoingMovements = [])
    (h1 : s < e) (h2 : l.simStartTimeInMin ≤ s) (h3 : e ≤ l.simEndTimeInMin)
    (h4 : e - s = l.simTimeStepInMin) :
    l.setSimVolume s e v =
      .ok { l with simVolume := fun p => if p = (s, e) then v else l.simVolume p } := by
  unfold RoadLink.setSimVolume
  rw [validateInputTimes_ok l s e h1 h2 h3, checkInputTimeStep_ok l s e h4]
  have hm : l.hasMovementVolumes s e = false := by
    simp [RoadLink.hasMovementVolumes, hmov]
  have hn : l.getNumOutgoingMovements = 0 := by
    simp [RoadLink.getNumOutgoingMovements, hmov]
  simp only [exceptOkBind, hm, hn]
  rfl

/-! ### Fixtures for the witness theorems -/

/-- A concrete link with no outgoing movements over the simulation horizon
`[0, 60]` with a 15-minute step. -/
def sampleLink : RoadLink :=
  { id := 1, startNode := ⟨1, 0, 0⟩, endNode := ⟨2, 30, 40⟩,
    reverseAttachedLinkId := none, facilityType := 4, length := some 250,
    freeflowSpeed := 30, effectiveLengthFactor := 1, responseTimeFactor := 1,
    numLanes := 2, roundAbout := false, level := 0, label := none,
    startShift := none, endShift := none, shapePoints := [],
    outgoingMovements := [], simVolume := fun _ => 0,
    simStartTimeInMin := 0, simEndTimeInMin := 60, simTimeStepInMin := 15 }

/-! ### C1 -/

/-- C1: for every `RoadLink` with zero outgoing movements and every valid
single-bin window `[s, e)` inside the simulation horizon with
`e - s = simTimeStepInMin`, `setSimVolume(s, e, v)` followed by
`getSimVolume(s, e)` returns exactly `v`. -/
theorem C1_set_then_get_roundtrip (l : RoadLink) (s e v : Int)
    (hmov : l.outgoingMovements = [])
    (hstep : e - s = l.simTimeStepInMin) (hpos : 0 < l.simTimeStepInMin)
    (hlo : l.simStartTimeInMin ≤ s) (hhi : e ≤ l.simEndTimeInMin) :
    ∃ lup : RoadLink, l.setSimVolume s e v = .ok lup ∧ lup.getSimVolume s e = .ok v := by
  have h1 : s < e := by omega
  refine ⟨_, setSimVolume_noMov l s e v hmov h1 hlo hhi hstep, ?_⟩
  have hval : RoadLink.validateInputTimes
      { l with simVolume := fun p => if p = (s, e) then v else l.simVolume p } s e = .ok () :=
    validateInputTimes_ok _ s e h1 hlo hhi
  have hchk : RoadLink.checkOutputTimeStep
      { l with simVolume := fun p => if p = (s, e) then v else l.simVolume p } s e = .ok () := by
    refine checkOutputTimeStep_ok _ s e ?_
    show (e - s) % l.simTimeStepInMin = 0
    rw [hstep, Int.emod_self]
  rw [getSimVolume_reduce _ s e hval hchk]
  rw [if_neg (by simp [RoadLink.getNumOutgoingMovements, hmov])]
  rw [show RoadLink.simTimeStepInMin
      { l with simVolume := fun p => if p = (s, e) then v else l.simVolume p }
    = l.simTimeStepInMin from rfl]
  rw [binWalk_single _ s e l.simTimeStepInMin hpos hstep]
  simp

/-- Witness for C1 at a concrete link and window. -/
theorem C1_set_then_get_roundtrip_witness :
    ∃ lup : RoadLink, sampleLink.setSimVolume 0 15 100 = .ok lup ∧
      lup.getSimVolume 0 15 = .ok 100 :=
  C1_set_then_get_roundtrip sampleLink 0 15 100 rfl (by decide) (by decide)
    (by decide) (by decide)

lemma exceptErrorBind {eps alpha beta : Type} (err : eps) (f : alpha → Except eps beta) :
    (Except.error err : Except eps alpha) >>= f = .error err := rfl

/-! ### C3 -/

/-- C3: on a link with two or more outgoing movements, `setSimVolume` fails
with a domain error for every volume value over any valid single-bin window
(at the movement-volume-conflict check or at the ambiguous-fan-out check).
In this embedding a failed call produces no updated link, so the own
per-bin series map of the link is unchanged. -/
theorem C3_setSimVolume_two_movements_fails (l : RoadLink) (s e v : Int)
    (hmov : 2 ≤ l.outgoingMovements.length)
    (hstep : e - s = l.simTimeStepInMin) (hpos : 0 < l.simTimeStepInMin)
    (hlo : l.simStartTimeInMin ≤ s) (hhi : e ≤ l.simEndTimeInMin) :
    ∃ err : DtaError, l.setSimVolume s e v = .error err := by
  unfold RoadLink.setSimVolume
  rw [validateInputTimes_ok l s e (by omega) hlo hhi, checkInputTimeStep_ok l s e hstep]
  simp only [exceptOkBind]
  cases hhas : l.hasMovementVolumes s e with
  | true =>
    exact ⟨.movementVolumeConflict, rfl⟩
  | false =>
    refine ⟨.tooManyOutgoingMovements, ?_⟩
    rw [if_neg Bool.false_ne_true]
    rw [if_pos (by unfold RoadLink.getNumOutgoingMovements; omega)]

/-- A concrete link with two outgoing movements. -/
def sampleLinkTwoMov : RoadLink :=
  { sampleLink with outgoingMovements := [⟨fun _ => 0⟩, ⟨fun _ => 0⟩] }

/-- Witness for C3 at a concrete link and window. -/
theorem C3_setSimVolume_two_movements_fails_witness :
    ∃ err : DtaError, sampleLinkTwoMov.setSimVolume 0 15 7 = .error err :=
  C3_setSimVolume_two_movements_fails sampleLinkTwoMov 0 15 7 (by decide) (by decide)
    (by decide) (by decide) (by decide)

/-! ### C4 -/

/-- C4 counterexample: the claim says every operation of the class preserves
`numLanes > 0`, but `setNumLanes` stores its argument unchecked: starting
from a validly constructed 2-lane link, `setNumLanes(0)` leaves the link
with `numLanes = 0`. -/
theorem C4_counterexample_setNumLanes :
    (mkRoadLink 1 ⟨1, 0, 0⟩ ⟨2, 30, 40⟩ none 4 (some 250) 30 1 1 2 false none none
        0 60 15).map (fun l => (l.setNumLanes 0).numLanes) = .ok 0 := by
  rfl

/-- C4 amended: constructing a `RoadLink` with `numLanes ≤ 0` fails
immediately with a domain error; a successful construction establishes
`numLanes > 0`; and the embedded operations other than `setNumLanes`
(`setSimVolume`, `addShapePoint`, `addShifts`) preserve `numLanes` — but
`setNumLanes` stores its argument without validation, so it can break the
invariant. -/
theorem C4_numLanes_invariant :
    (∀ id sN eN r ft len ffs elf rtf numLanes rab lev lab s0 s1 st,
      numLanes ≤ 0 →
        mkRoadLink id sN eN r ft len ffs elf rtf numLanes rab lev lab s0 s1 st =
          .error .nonPositiveNumLanes) ∧
    (∀ id sN eN r ft len ffs elf rtf numLanes rab lev lab s0 s1 st l,
      mkRoadLink id sN eN r ft len ffs elf rtf numLanes rab lev lab s0 s1 st = .ok l →
        0 < l.numLanes) ∧
    (∀ (l lup : RoadLink) s e v, l.setSimVolume s e v = .ok lup →
      lup.numLanes = l.numLanes) ∧
    (∀ (l : RoadLink) x y, (l.addShapePoint x y).numLanes = l.numLanes) ∧
    (∀ (l : RoadLink) a b, (l.addShifts a b).numLanes = l.numLanes) := by
  refine ⟨?_, ?_, ?_, ?_, ?_⟩
  · intro id sN eN r ft len ffs elf rtf numLanes rab lev lab s0 s1 st h
    unfold mkRoadLink
    rw [if_pos h]
  · intro id sN eN r ft len ffs elf rtf numLanes rab lev lab s0 s1 st l h
    unfold mkRoadLink at h
    split at h
    · cases h
    · cases h
      simp only []
      omega
  · intro l lup s e v h
    unfold RoadLink.setSimVolume at h
    cases hval : l.validateInputTimes s e with
    | error err => rw [hval, exceptErrorBind] at h; cases h
    | ok u =>
      cases u
      rw [hval] at h
      simp only [exceptOkBind] at h
      cases hchk : l.checkInputTimeStep s e with
      | error err => rw [hchk, exceptErrorBind] at h; cases h
      | ok u2 =>
        cases u2
        rw [hchk] at h
        simp only [exceptOkBind] at h
        split at h
        · cases h
        · split at h
          · cases h
          · split at h
            · cases h
              rfl
            · cases h
              rfl
  · intro l x y
    rfl
  · intro l a b
    rfl

/-- Witness for C4 at concrete inputs: constructing with `numLanes = 0`
fails, and `addShapePoint` leaves `numLanes` unchanged. -/
theorem C4_numLanes_invariant_witness :
    mkRoadLink 1 ⟨1, 0, 0⟩ ⟨2, 30, 40⟩ none 4 (some 250) 30 1 1 0 false none none
        0 60 15 = .error .nonPositiveNumLanes ∧
      (sampleLink.addShapePoint 1 2).numLanes = sampleLink.numLanes :=
  ⟨C4_numLanes_invariant.1 1 ⟨1, 0, 0⟩ ⟨2, 30, 40⟩ none 4 (some 250) 30 1 1 0 false
      none none 0 60 15 (by decide),
    C4_numLanes_invariant.2.2.2.1 sampleLink 1 2⟩

/-! ### C5 -/

lemma sampleLink_euclideanLength (len : Option ℚ) :
    RoadLink.euclideanLength { sampleLink with length := len } = 50 := by
  unfold RoadLink.euclideanLength
  norm_num [sampleLink]
  rw [show (2500 : ℝ) = 50 ^ 2 by norm_num]
  exact Real.sqrt_sq (by norm_num)

/-- C5 (code bug): the constructor docstring says "Pass None to automatically
calculate it", and the claim says `length = None` makes `getLength()` return
the Euclidean distance — but `getLength` tests `self._length != -1`, which is
true for `None`, so the stored `None` itself is returned.  For a link from
`(0,0)` to `(30,40)` with `length=None`, `getLength()` returns `None` even
though the Euclidean length is `50`; the sentinel branch only fires for
`length = -1`; and a stored non-sentinel length is returned as stored. -/
theorem C5_getLength_none_bug :
    RoadLink.getLength { sampleLink with length := none } = none ∧
    RoadLink.euclideanLength { sampleLink with length := none } = 50 ∧
    RoadLink.getLength { sampleLink with length := some (-1) } = some 50 ∧
    RoadLink.getLength sampleLink = some 250 := by
  refine ⟨rfl, sampleLink_euclideanLength none, ?_, ?_⟩
  · show (if ((-1 : ℚ)) = -1 then
        some (RoadLink.euclideanLength { sampleLink with length := some (-1) })
      else some (((-1 : ℚ)) : ℝ)) = some 50
    rw [if_pos rfl, sampleLink_euclideanLength (some (-1))]
  · show (if ((250 : ℚ)) = -1 then some (RoadLink.euclideanLength sampleLink)
      else some (((250 : ℚ)) : ℝ)) = some 250
    rw [if_neg (by norm_num)]
    norm_num

/-! ### C2 -/

lemma listSumComm {α β : Type} (xs : List α) (ys : List β) (g : α → β → Int) :
    (xs.map (fun x => (ys.map (g x)).sum)).sum =
      (ys.map (fun y => (xs.map (fun x => g x y)).sum)).sum := by
  induction xs with
  | nil => simp
  | cons a t ih =>
    simp only [List.map_cons, List.sum_cons]
    rw [ih, ← List.sum_map_add]

/-- C2: for every link and every valid window `[s, e)` inside the horizon
whose length is `n` native steps, `getSimVolume(s, e)` equals the sum of
`getSimVolume` over the `n` consecutive native sub-bins covering `[s, e)`
(missing bins contribute 0 through the `defaultdict`). -/
theorem C2_getSimVolume_additive (l : RoadLink) (s e : Int) (n : ℕ)
    (hn : 0 < n) (hpos : 0 < l.simTimeStepInMin)
    (hse : e - s = (n : Int) * l.simTimeStepInMin)
    (hlo : l.simStartTimeInMin ≤ s) (hhi : e ≤ l.simEndTimeInMin) :
    ∃ vs : ℕ → Int,
      (∀ i : ℕ, i < n →
        l.getSimVolume (s + (i : Int) * l.simTimeStepInMin)
            (s + ((i : Int) + 1) * l.simTimeStepInMin) = .ok (vs i)) ∧
      l.getSimVolume s e = .ok (((List.range n).map vs).sum) := by
  refine ⟨fun i => if l.getNumOutgoingMovements > 0 then
      (l.outgoingMovements.map (fun m => m.simVolume
        (s + (i : Int) * l.simTimeStepInMin,
         s + ((i : Int) + 1) * l.simTimeStepInMin))).sum
    else l.simVolume (s + (i : Int) * l.simTimeStepInMin,
      s + ((i : Int) + 1) * l.simTimeStepInMin), ?_, ?_⟩
  · intro i hi
    have hin1 : ((i : Int) + 1) ≤ (n : Int) := by exact_mod_cast hi
    have hstepmul : ((i : Int) + 1) * l.simTimeStepInMin ≤ (n : Int) * l.simTimeStepInMin :=
      mul_le_mul_of_nonneg_right hin1 (le_of_lt hpos)
    have hi0 : (0 : Int) ≤ (i : Int) * l.simTimeStepInMin :=
      mul_nonneg (Int.natCast_nonneg i) (le_of_lt hpos)
    have hdiff : (s + ((i : Int) + 1) * l.simTimeStepInMin) -
        (s + (i : Int) * l.simTimeStepInMin) = l.simTimeStepInMin := by ring
    have hval : l.validateInputTimes (s + (i : Int) * l.simTimeStepInMin)
        (s + ((i : Int) + 1) * l.simTimeStepInMin) = .ok () := by
      refine validateInputTimes_ok l _ _ (by omega) (by omega) (by omega)
    have hchk : l.checkOutputTimeStep (s + (i : Int) * l.simTimeStepInMin)
        (s + ((i : Int) + 1) * l.simTimeStepInMin) = .ok () := by
      refine checkOutputTimeStep_ok l _ _ ?_
      rw [hdiff, Int.emod_self]
    rw [getSimVolume_reduce l _ _ hval hchk]
    by_cases hmv : l.getNumOutgoingMovements > 0
    · simp only [if_pos hmv]
      refine congrArg Except.ok (congrArg List.sum (List.map_congr_left ?_))
      intro m _
      exact binWalk_single m.simVolume _ _ l.simTimeStepInMin hpos hdiff
    · simp only [if_neg hmv]
      exact congrArg Except.ok (binWalk_single l.simVolume _ _ l.simTimeStepInMin hpos hdiff)
  · have hs_lt_e : s < e := by
      have : (0 : Int) < (n : Int) * l.simTimeStepInMin :=
        mul_pos (by exact_mod_cast hn) hpos
      omega
    have hval : l.validateInputTimes s e = .ok () :=
      validateInputTimes_ok l s e hs_lt_e hlo hhi
    have hchk : l.checkOutputTimeStep s e = .ok () := by
      refine checkOutputTimeStep_ok l s e ?_
      rw [hse]
      exact Int.mul_emod_left _ _
    rw [getSimVolume_reduce l s e hval hchk]
    by_cases hmv : l.getNumOutgoingMovements > 0
    · rw [if_pos hmv]
      refine congrArg Except.ok ?_
      have hmove : ∀ m : Movement, RoadLink.movGetSimVolume l.simTimeStepInMin m s e =
          ((List.range n).map (fun (i : ℕ) => m.simVolume
            (s + (i : Int) * l.simTimeStepInMin,
             s + ((i : Int) + 1) * l.simTimeStepInMin))).sum := by
        intro m
        exact binWalk_eq_sum m.simVolume s e l.simTimeStepInMin n hpos hse
      rw [List.map_congr_left (fun m _ => hmove m)]
      rw [listSumComm l.outgoingMovements (List.range n)
        (fun m (i : ℕ) => m.simVolume
          (s + (i : Int) * l.simTimeStepInMin, s + ((i : Int) + 1) * l.simTimeStepInMin))]
      refine congrArg List.sum (List.map_congr_left ?_)
      intro i _
      simp only [if_pos hmv]
    · rw [if_neg hmv]
      refine congrArg Except.ok ?_
      rw [binWalk_eq_sum l.simVolume s e l.simTimeStepInMin n hpos hse]
      refine congrArg List.sum (List.map_congr_left ?_)
      intro i _
      simp only [if_neg hmv]

/-- A concrete link with no movements and volume 100 stored in the bin
`[0, 15)`. -/
def sampleLinkOneBin : RoadLink :=
  { sampleLink with simVolume := fun p => if p = (0, 15) then 100 else 0 }

/-- Witness for C2: the spec scenario — volume 100 in bin `[0, 15)`, window
`[0, 30)` of two native bins. -/
theorem C2_getSimVolume_additive_witness :
    ∃ vs : ℕ → Int,
      (∀ i : ℕ, i < 2 →
        sampleLinkOneBin.getSimVolume (0 + (i : Int) * sampleLinkOneBin.simTimeStepInMin)
            (0 + ((i : Int) + 1) * sampleLinkOneBin.simTimeStepInMin) = .ok (vs i)) ∧
      sampleLinkOneBin.getSimVolume 0 30 = .ok (((List.range 2).map vs).sum) :=
  C2_getSimVolume_additive sampleLinkOneBin 0 30 2 (by decide) (by decide) (by decide)
    (by decide) (by decide)

/-! ### C9 -/

/-- The spec scenario link: from `(0,0)` to `(0,10)`, one lane. -/
def vertLink : RoadLink :=
  { sampleLink with startNode := ⟨1, 0, 0⟩, endNode := ⟨2, 0, 10⟩, numLanes := 1 }

lemma vertLink_euclideanLength : RoadLink.euclideanLength vertLink = 10 := by
  unfold RoadLink.euclideanLength
  norm_num [vertLink, sampleLink]
  rw [show (100 : ℝ) = 10 ^ 2 by norm_num]
  exact Real.sqrt_sq (by norm_num)

lemma vertLink_centerline :
    RoadLink.getCenterLine vertLink = ((6, 0), (6, 10)) := by
  simp only [RoadLink.getCenterLine, vertLink_euclideanLength]
  norm_num [vertLink, sampleLink, RoadLink.DEFAULT_LANE_WIDTH_FEET]

lemma vertLink_outline :
    RoadLink.getOutline vertLink 1 = ((0, 0), (0, 10), (12, 10), (12, 0)) := by
  simp only [RoadLink.getOutline, vertLink_euclideanLength]
  norm_num [vertLink, sampleLink, RoadLink.DEFAULT_LANE_WIDTH_FEET]

/-- C9 counterexample: the claim says the outline of the one-lane scenario
link has total width 24 feet; the computed ring is
`((0,0), (0,10), (12,10), (12,0))`, whose offset width is
`numLanes * DEFAULT_LANE_WIDTH_FEET * scale = 12` feet, not 24 — the ring
claimed by a 24-foot width, `((0,0), (0,10), (24,10), (24,0))`, differs from
the computed one. -/
theorem C9_counterexample_outline_width :
    RoadLink.getOutline vertLink 1 = ((0, 0), (0, 10), (12, 10), (12, 0)) ∧
    RoadLink.getOutline vertLink 1 ≠ ((0, 0), (0, 10), (24, 10), (24, 0)) := by
  refine ⟨vertLink_outline, ?_⟩
  rw [vertLink_outline]
  intro h
  have h12 : (12 : ℝ) = 24 := congrArg (fun r => r.2.2.1.1) h
  norm_num at h12

/-- C9 amended: for the link from `(0,0)` to `(0,10)` with 1 lane and
`DEFAULT_LANE_WIDTH_FEET = 12`, `getCenterLine()` is the segment offset 6
feet perpendicular to the right of the direction of travel, and
`getOutline(scale=1)` is the 4-point ring (start node, end node, end node
offset, start node offset) in clockwise order with total width 12 feet
(`numLanes * DEFAULT_LANE_WIDTH_FEET * scale`), not 24. -/
theorem C9_centerline_outline :
    RoadLink.getCenterLine vertLink = ((6, 0), (6, 10)) ∧
    RoadLink.getOutline vertLink 1 = ((0, 0), (0, 10), (12, 10), (12, 0)) ∧
    RoadLink.ringSignedArea (RoadLink.getOutline vertLink 1) < 0 := by
  refine ⟨vertLink_centerline, vertLink_outline, ?_⟩
  rw [vertLink_outline]
  unfold RoadLink.ringSignedArea
  norm_num

/-! ### C6 -/

lemma sqrt_sq_add_sq_eq_zero_iff (a b : ℝ) :
    Real.sqrt (a ^ 2 + b ^ 2) = 0 ↔ a = 0 ∧ b = 0 := by
  rw [Real.sqrt_eq_zero (by positivity)]
  constructor
  · intro h
    constructor <;> nlinarith [sq_nonneg a, sq_nonneg b]
  · rintro ⟨ha, hb⟩
    rw [ha, hb]
    norm_num

/-- A single node used by two distinct zero-length links. -/
def degNodeP : Node := ⟨5, 0, 0⟩

/-- A zero-length link sitting at `degNodeP`. -/
def degLinkA : RoadLink := { sampleLink with id := 21, startNode := degNodeP, endNode := degNodeP }

/-- A second, distinct zero-length link at the same node. -/
def degLinkB : RoadLink := { sampleLink with id := 22, startNode := degNodeP, endNode := degNodeP }

/-- The exact reverse of `sampleLink` (start/end nodes swapped). -/
def revSampleLink : RoadLink :=
  { sampleLink with id := 12, startNode := ⟨2, 30, 40⟩, endNode := ⟨1, 0, 0⟩ }

/-- A link away from the origin, used to reach the zero-length check. -/
def offLink : RoadLink := { sampleLink with id := 31, startNode := ⟨7, 1, 1⟩, endNode := ⟨8, 2, 2⟩ }

/-- C6 counterexample: `degLinkA` and `degLinkB` are distinct links with
`self.start == other.end` and `self.end == other.start` (all four nodes are
the same zero-length point), yet `getAcuteAngle` returns 0, not the claimed
180: the mirrored-configuration special case fires before the
reversed-links case. -/
theorem C6_counterexample_degenerate_reverse :
    degLinkA.startNode = degLinkB.endNode ∧ degLinkA.endNode = degLinkB.startNode ∧
    RoadLink.getAcuteAngle degLinkA degLinkB = .ok 0 ∧
    RoadLink.getAcuteAngle degLinkA degLinkB ≠ .ok 180 := by
  refine ⟨rfl, rfl, ?_, ?_⟩
  · unfold RoadLink.getAcuteAngle
    rw [if_neg (by decide), if_pos (by decide)]
  · unfold RoadLink.getAcuteAngle
    rw [if_neg (by decide), if_pos (by decide)]
    intro h
    have h2 : (0 : ℝ) = 180 := by
      injection h
    norm_num at h2

/-- C6 amended: `getAcuteAngle(self, self)` returns 0; for distinct links in
exact reverse configuration whose endpoints have distinct coordinates it
returns 180; and when no earlier special case applies and either link has
zero Euclidean length it raises the zero-length domain error.  (The 180 case
of the original claim fails for zero-length reversed pairs: these hit the
earlier mirrored-configuration case and return 0.) -/
theorem C6_acuteAngle_special_cases :
    (∀ l : RoadLink, l.getAcuteAngle l = .ok 0) ∧
    (∀ l other : RoadLink, l.id ≠ other.id →
      l.startNode = other.endNode → l.endNode = other.startNode →
      ¬(other.startNode.x = other.endNode.x ∧ other.startNode.y = other.endNode.y) →
      l.getAcuteAngle other = .ok 180) ∧
    (∀ l other : RoadLink,
      l.id ≠ other.id →
      ¬(l.startNode.x = other.startNode.x ∧ l.startNode.y = other.endNode.y ∧
          l.endNode.x = other.endNode.x ∧ l.endNode.y = other.endNode.y) →
      ¬(l.startNode = other.endNode ∧ l.endNode = other.startNode) →
      ((l.startNode.x = l.endNode.x ∧ l.startNode.y = l.endNode.y) ∨
        (other.startNode.x = other.endNode.x ∧ other.startNode.y = other.endNode.y)) →
      l.getAcuteAngle other = .error .zeroLengthLink) := by
  refine ⟨?_, ?_, ?_⟩
  · intro l
    unfold RoadLink.getAcuteAngle
    rw [if_pos rfl]
  · intro l other hid hse hes hdeg
    have hx1 : l.startNode.x = other.endNode.x := congrArg Node.x hse
    have hy1 : l.startNode.y = other.endNode.y := congrArg Node.y hse
    have hx2 : l.endNode.x = other.startNode.x := congrArg Node.x hes
    have hy2 : l.endNode.y = other.startNode.y := congrArg Node.y hes
    unfold RoadLink.getAcuteAngle
    rw [if_neg hid, if_neg ?_, if_pos ⟨hse, hes⟩]
    rintro ⟨c1, _, c3, c4⟩
    exact hdeg ⟨by rw [← c1, hx1], by rw [hy2] at c4; exact c4⟩
  · intro l other hid hc2 hc3 hzero
    unfold RoadLink.getAcuteAngle
    rw [if_neg hid, if_neg hc2, if_neg hc3]
    rcases hzero with ⟨hx, hy⟩ | ⟨hx, hy⟩
    · have h1 : Real.sqrt (((l.endNode.x - l.startNode.x : ℚ) : ℝ) ^ 2 +
          ((l.endNode.y - l.startNode.y : ℚ) : ℝ) ^ 2) = 0 := by
        rw [sqrt_sq_add_sq_eq_zero_iff]
        constructor
        · rw [show (l.endNode.x - l.startNode.x : ℚ) = 0 from by rw [sub_eq_zero]; exact hx.symm]
          exact Rat.cast_zero
        · rw [show (l.endNode.y - l.startNode.y : ℚ) = 0 from by rw [sub_eq_zero]; exact hy.symm]
          exact Rat.cast_zero
      rw [if_pos h1]
    · by_cases h1 : Real.sqrt (((l.endNode.x - l.startNode.x : ℚ) : ℝ) ^ 2 +
          ((l.endNode.y - l.startNode.y : ℚ) : ℝ) ^ 2) = 0
      · rw [if_pos h1]
      · rw [if_neg h1]
        have h2 : Real.sqrt (((other.endNode.x - other.startNode.x : ℚ) : ℝ) ^ 2 +
            ((other.endNode.y - other.startNode.y : ℚ) : ℝ) ^ 2) = 0 := by
          rw [sqrt_sq_add_sq_eq_zero_iff]
          constructor
          · rw [show (other.endNode.x - other.startNode.x : ℚ) = 0 from by
                rw [sub_eq_zero]; exact hx.symm]
            exact Rat.cast_zero
          · rw [show (other.endNode.y - other.startNode.y : ℚ) = 0 from by
                rw [sub_eq_zero]; exact hy.symm]
            exact Rat.cast_zero
        rw [if_pos h2]

/-- Witness for C6: the three amended cases applied to concrete links — a
link against itself, the sample link against its exact reverse, and a
zero-length link against an ordinary one. -/
theorem C6_acuteAngle_special_cases_witness :
    sampleLink.getAcuteAngle sampleLink = .ok 0 ∧
    sampleLink.getAcuteAngle revSampleLink = .ok 180 ∧
    degLinkA.getAcuteAngle offLink = .error .zeroLengthLink :=
  ⟨C6_acuteAngle_special_cases.1 sampleLink,
    C6_acuteAngle_special_cases.2.1 sampleLink revSampleLink (by decide) rfl rfl (by decide),
    C6_acuteAngle_special_cases.2.2 degLinkA offLink (by decide) (by decide) (by decide)
      (Or.inl (by decide))⟩

/-! ### C7 -/

/-- First link of the asymmetric pair: from `(0,5)` to `(3,5)`. -/
def asymLink1 : RoadLink :=
  { sampleLink with id := 41, startNode := ⟨9, 0, 5⟩, endNode := ⟨10, 3, 5⟩ }

/-- Second link of the asymmetric pair: from `(0,7)` to `(3,5)`. -/
def asymLink2 : RoadLink :=
  { sampleLink with id := 42, startNode := ⟨11, 0, 7⟩, endNode := ⟨12, 3, 5⟩ }

/-- C7 (code bug): `getAcuteAngle` is not symmetric.  For `asymLink1` (from
`(0,5)` to `(3,5)`) and `asymLink2` (from `(0,7)` to `(3,5)`), the
mirrored-configuration special case — which compares `self.start.y` against
`other.END.y`, an apparent typo for `other.start.y` — fires in one direction
only: `asymLink1.getAcuteAngle(asymLink2)` returns 0, while
`asymLink2.getAcuteAngle(asymLink1)` computes the genuine positive angle
`acos(9 / (3 * sqrt 13))`. -/
theorem C7_counterexample_asymmetric :
    RoadLink.getAcuteAngle asymLink1 asymLink2 = .ok 0 ∧
    (∃ theta : ℝ, RoadLink.getAcuteAngle asymLink2 asymLink1 = .ok theta ∧ 0 < theta) ∧
    RoadLink.getAcuteAngle asymLink1 asymLink2 ≠ RoadLink.getAcuteAngle asymLink2 asymLink1 := by
  have h1 : RoadLink.getAcuteAngle asymLink1 asymLink2 = .ok 0 := by
    unfold RoadLink.getAcuteAngle
    rw [if_neg (by decide), if_pos (by decide)]
  have e1 : ((asymLink2.endNode.x - asymLink2.startNode.x : ℚ) : ℝ) = 3 := by
    norm_num [asymLink2, sampleLink]
  have e2 : ((asymLink2.endNode.y - asymLink2.startNode.y : ℚ) : ℝ) = -2 := by
    norm_num [asymLink2, sampleLink]
  have e3 : ((asymLink1.endNode.x - asymLink1.startNode.x : ℚ) : ℝ) = 3 := by
    norm_num [asymLink1, sampleLink]
  have e4 : ((asymLink1.endNode.y - asymLink1.startNode.y : ℚ) : ℝ) = 0 := by
    norm_num [asymLink1, sampleLink]
  have hs13 : Real.sqrt ((3 : ℝ) ^ 2 + (-2 : ℝ) ^ 2) = Real.sqrt 13 := by norm_num
  have hs3 : Real.sqrt ((3 : ℝ) ^ 2 + (0 : ℝ) ^ 2) = 3 := by
    rw [show (3 : ℝ) ^ 2 + (0 : ℝ) ^ 2 = 3 ^ 2 by norm_num]
    exact Real.sqrt_sq (by norm_num)
  have h13pos : (0 : ℝ) < Real.sqrt 13 := Real.sqrt_pos.mpr (by norm_num)
  have hlt : (9 : ℝ) / (Real.sqrt 13 * 3) < 1 := by
    rw [div_lt_one (by positivity)]
    have h3lt : (3 : ℝ) < Real.sqrt 13 := (Real.lt_sqrt (by norm_num)).mpr (by norm_num)
    nlinarith
  have hnum : (3 : ℝ) * 3 + -2 * 0 = 9 := by norm_num
  have h2 : RoadLink.getAcuteAngle asymLink2 asymLink1 =
      .ok (|Real.arccos ((9 : ℝ) / (Real.sqrt 13 * 3))| / Real.pi * 180) := by
    simp only [RoadLink.getAcuteAngle]
    rw [if_neg (by decide), if_neg (by decide), if_neg (by decide)]
    rw [e1, e2, e3, e4, hs13, hs3, hnum]
    rw [if_neg (by positivity : ¬Real.sqrt 13 = 0), if_neg (by norm_num : ¬(3 : ℝ) = 0)]
    rw [if_neg ?_]
    rw [abs_of_nonneg (by positivity : (0 : ℝ) ≤ 9 / (Real.sqrt 13 * 3))]
    push_neg
    linarith [hlt]
  have htheta : 0 < |Real.arccos ((9 : ℝ) / (Real.sqrt 13 * 3))| / Real.pi * 180 := by
    have hpos : 0 < Real.arccos ((9 : ℝ) / (Real.sqrt 13 * 3)) := Real.arccos_pos.mpr hlt
    have habs : |Real.arccos ((9 : ℝ) / (Real.sqrt 13 * 3))| =
        Real.arccos ((9 : ℝ) / (Real.sqrt 13 * 3)) :=
      abs_of_nonneg (Real.arccos_nonneg _)
    rw [habs]
    have := Real.pi_pos
    positivity
  refine ⟨h1, ⟨_, h2, htheta⟩, ?_⟩
  rw [h1, h2]
  intro he
  have h0 : (0 : ℝ) = |Real.arccos ((9 : ℝ) / (Real.sqrt 13 * 3))| / Real.pi * 180 :=
    Except.ok.inj he
  linarith

/-! ### C8 -/

/-- The spec scenario link: nodes `(0,0)` → `(10,0)`, 2 lanes. -/
def eastLink : RoadLink :=
  { sampleLink with startNode := ⟨1, 0, 0⟩, endNode := ⟨2, 10, 0⟩, numLanes := 2 }

/-- C8: for every orientation in `[0, 360)` the bucketing of `getDirection`
returns exactly one of NB/EB/SB/WB, with NB on `[315,360) ∪ [0,45)`, EB on
`[45,135)`, SB on `[135,225)`, WB on `[225,315)`; and the link with nodes
`(0,0)` → `(10,0)` has orientation 90 degrees (due east) and direction EB. -/
theorem C8_direction_buckets :
    (∀ o : ℝ, 0 ≤ o → o < 360 →
      ((RoadLink.directionOfOrientation o = RoadLink.DIR_NB ↔ (315 ≤ o ∨ o < 45)) ∧
       (RoadLink.directionOfOrientation o = RoadLink.DIR_EB ↔ (45 ≤ o ∧ o < 135)) ∧
       (RoadLink.directionOfOrientation o = RoadLink.DIR_SB ↔ (135 ≤ o ∧ o < 225)) ∧
       (RoadLink.directionOfOrientation o = RoadLink.DIR_WB ↔ (225 ≤ o ∧ o < 315)))) ∧
    RoadLink.getOrientation eastLink = .ok 90 ∧
    RoadLink.getDirection eastLink = .ok RoadLink.DIR_EB := by
  have horient : RoadLink.getOrientation eastLink = .ok 90 := by
    have hof : RoadLink.getOrientation eastLink = .ok (RoadLink.orientationFrom 0 0 10 0) := rfl
    rw [hof]
    simp only [RoadLink.orientationFrom]
    rw [if_pos (⟨by norm_num, by norm_num⟩ : (10 : ℚ) > 0 ∧ (0 : ℚ) ≤ 0)]
    norm_num [Real.arctan_zero]
    field_simp
    ring
  refine ⟨?_, horient, ?_⟩
  · intro o h0 h360
    unfold RoadLink.directionOfOrientation
    split_ifs with hA hB hC
    · refine ⟨⟨fun _ => hA, fun _ => rfl⟩, ⟨?_, ?_⟩, ⟨?_, ?_⟩, ⟨?_, ?_⟩⟩
      · intro h; exact absurd h (by decide)
      · intro h; rcases hA with h1 | h1 <;> linarith [h.1, h.2]
      · intro h; exact absurd h (by decide)
      · intro h; rcases hA with h1 | h1 <;> linarith [h.1, h.2]
      · intro h; exact absurd h (by decide)
      · intro h; rcases hA with h1 | h1 <;> linarith [h.1, h.2]
    · push_neg at hA
      refine ⟨⟨?_, ?_⟩, ⟨fun _ => hB, fun _ => rfl⟩, ⟨?_, ?_⟩, ⟨?_, ?_⟩⟩
      · intro h; exact absurd h (by decide)
      · intro h
        rcases h with h1 | h1
        · exact absurd h1 (not_le.mpr (by linarith [hB.2]))
        · linarith [hA.2]
      · intro h; exact absurd h (by decide)
      · intro h; linarith [hB.2, h.1]
      · intro h; exact absurd h (by decide)
      · intro h; linarith [hB.2, h.1]
    · push_neg at hA hB
      refine ⟨⟨?_, ?_⟩, ⟨?_, ?_⟩, ⟨fun _ => hC, fun _ => rfl⟩, ⟨?_, ?_⟩⟩
      · intro h; exact absurd h (by decide)
      · intro h
        rcases h with h1 | h1
        · linarith [hC.2]
        · linarith [hC.1]
      · intro h; exact absurd h (by decide)
      · intro h; linarith [hC.1, h.2]
      · intro h; exact absurd h (by decide)
      · intro h; linarith [hC.2, h.1]
    · push_neg at hA hB hC
      have h135 : 135 ≤ o := hB (by linarith [hA.2])
      have h225 : 225 ≤ o := hC h135
      refine ⟨⟨?_, ?_⟩, ⟨?_, ?_⟩, ⟨?_, ?_⟩, ⟨fun _ => ⟨h225, hA.1⟩, fun _ => rfl⟩⟩
      · intro h; exact absurd h (by decide)
      · intro h
        rcases h with h1 | h1
        · linarith [hA.1]
        · linarith
      · intro h; exact absurd h (by decide)
      · intro h; linarith [h.2]
      · intro h; exact absurd h (by decide)
      · intro h; linarith [h.2]
  · unfold RoadLink.getDirection
    rw [horient]
    show Except.ok (RoadLink.directionOfOrientation 90) = Except.ok RoadLink.DIR_EB
    unfold RoadLink.directionOfOrientation
    rw [if_neg (by norm_num), if_pos (by norm_num)]

/-- Witness for the C8 bucketing at a concrete orientation inside `[45,135)`. -/
theorem C8_direction_buckets_witness :
    RoadLink.directionOfOrientation 100 = RoadLink.DIR_EB :=
  ((C8_direction_buckets.1 100 (by norm_num) (by norm_num)).2.1).mpr (by norm_num)

/-! ### C10 -/

lemma arctanNonnegOf (a : ℝ) (ha : 0 ≤ a) : 0 ≤ Real.arctan a := by
  have h := Real.arctan_strictMono.monotone ha
  rwa [Real.arctan_zero] at h

lemma degreesBounds (A : ℝ) (h0 : 0 ≤ A) (h2 : A < 2 * Real.pi) :
    0 ≤ A * 180 / Real.pi ∧ A * 180 / Real.pi < 360 := by
  have hpi := Real.pi_pos
  constructor
  · exact div_nonneg (mul_nonneg h0 (by norm_num)) (le_of_lt hpi)
  · rw [div_lt_iff₀ hpi]
    linarith

lemma orientationFrom_bounds (x1 y1 x2 y2 : ℚ) :
    0 ≤ RoadLink.orientationFrom x1 y1 x2 y2 ∧
      RoadLink.orientationFrom x1 y1 x2 y2 < 360 := by
  have hpi := Real.pi_pos
  simp only [RoadLink.orientationFrom]
  split_ifs with h1 h2 h3 h4
  · refine degreesBounds _ (add_nonneg (arctanNonnegOf _ (by positivity)) (by positivity)) ?_
    linarith [Real.arctan_lt_pi_div_two (|((y2 - y1 : ℚ) : ℝ)| / |((x2 - x1 : ℚ) : ℝ)|)]
  · refine degreesBounds _ (add_nonneg (arctanNonnegOf _ (by positivity)) (by positivity)) ?_
    linarith [Real.arctan_lt_pi_div_two (|((x2 - x1 : ℚ) : ℝ)| / |((y2 - y1 : ℚ) : ℝ)|)]
  · refine degreesBounds _ (add_nonneg (arctanNonnegOf _ (by positivity)) (by positivity)) ?_
    linarith [Real.arctan_lt_pi_div_two (|((y2 - y1 : ℚ) : ℝ)| / |((x2 - x1 : ℚ) : ℝ)|)]
  · refine degreesBounds _ (arctanNonnegOf _ (by positivity)) ?_
    linarith [Real.arctan_lt_pi_div_two (|((x2 - x1 : ℚ) : ℝ)| / |((y2 - y1 : ℚ) : ℝ)|)]
  · refine degreesBounds 0 (le_refl 0) (by linarith)

/-- C10 counterexample: the claim includes links holding exactly one shape
point, but there `getOrientation` looks up `self._shapePoints[-2]`, which
does not exist — a Python `IndexError`, not a value in `[0, 360)`. -/
theorem C10_counterexample_one_shape_point :
    (sampleLink.addShapePoint 5 5).shapePoints.length = 1 ∧
    (sampleLink.addShapePoint 5 5).getOrientation = .error .shapePointIndexOutOfRange := by
  exact ⟨rfl, rfl⟩

/-- C10 amended: for every link with zero shape points or at least two shape
points, `getOrientation()` returns a value in `[0, 360)` — from the last two
shape points when any exist, else from the start/end node coordinates — and
identical points give 0.  (With exactly one shape point the second-from-last
lookup fails instead.) -/
theorem C10_orientation_range :
    (∀ l : RoadLink, l.shapePoints.length ≠ 1 →
      ∃ theta : ℝ, l.getOrientation = .ok theta ∧ 0 ≤ theta ∧ theta < 360) ∧
    (∀ x1 y1 x2 y2 : ℚ, x1 = x2 → y1 = y2 →
      RoadLink.orientationFrom x1 y1 x2 y2 = 0) := by
  constructor
  · intro l hlen
    cases hsp : l.shapePoints with
    | nil =>
      have heq : l.getOrientation = .ok (RoadLink.orientationFrom
          l.startNode.x l.startNode.y l.endNode.x l.endNode.y) := by
        simp only [RoadLink.getOrientation, hsp]
      exact ⟨_, heq, (orientationFrom_bounds _ _ _ _).1, (orientationFrom_bounds _ _ _ _).2⟩
    | cons p ps =>
      have h2 : 2 ≤ (p :: ps).length := by
        cases ps with
        | nil => exact absurd (by rw [hsp]; rfl) hlen
        | cons q qs => simp
      have heq : l.getOrientation = .ok (RoadLink.orientationFrom
          (((p :: ps).getD ((p :: ps).length - 2) (0, 0)).1)
          (((p :: ps).getD ((p :: ps).length - 2) (0, 0)).2)
          (((p :: ps).getD ((p :: ps).length - 1) (0, 0)).1)
          (((p :: ps).getD ((p :: ps).length - 1) (0, 0)).2)) := by
        simp only [RoadLink.getOrientation, hsp]
        rw [if_pos h2]
      exact ⟨_, heq, (orientationFrom_bounds _ _ _ _).1, (orientationFrom_bounds _ _ _ _).2⟩
  · intro x1 y1 x2 y2 hx hy
    subst hx
    subst hy
    simp only [RoadLink.orientationFrom]
    rw [if_neg (fun h => lt_irrefl x1 h.1), if_neg (fun h => lt_irrefl y1 h.2),
      if_neg (fun h => lt_irrefl x1 h.1), if_neg (fun h => lt_irrefl y1 h.2)]
    norm_num

/-- Witness for C10: the sample link (no shape points) has an orientation in
range, and `orientationFrom` on identical points is 0. -/
theorem C10_orientation_range_witness :
    (∃ theta : ℝ, sampleLink.getOrientation = .ok theta ∧ 0 ≤ theta ∧ theta < 360) ∧
    RoadLink.orientationFrom 3 4 3 4 = 0 :=
  ⟨C10_orientation_range.1 sampleLink (by decide),
    C10_orientation_range.2 3 4 3 4 rfl rfl⟩
